import Mathlib

/-!
Shallow embedding of `src/processor/minidump_dump.cc` (breakpad's
`minidump_dump` tool) and proofs about its orchestration logic.

The external `Minidump` container-reader library (declared in
`google_breakpad/processor/minidump.h`) is out of scope for the tool
itself; it is modelled abstractly as a `Container` record describing, for
each structured record, whether the corresponding getter returns a
non-null pointer, and for each raw stream, whether `SeekToStreamType` /
`ReadBytes` succeed and with which bytes.  Printing delegated to the
library (`Print()` methods) is modelled as an opaque `OutItem.record`
output token; output written directly by `minidump_dump.cc` is modelled
token by token.
-/

namespace MinidumpDump

/-- One unit of text written to stdout by the tool.  `record nm` stands for
the (delegated, opaque) output of `nm->Print()`; `header nm` is the
`printf("Stream %s:\n")` at line 87; `span bs` is one `printf("%.*s")` at
line 105, which prints the bytes up to the first NUL; `marker` is the
`printf("\\0\n")` at line 110; `blank` is the `printf("\n")` at line 90;
`blank2` is the `printf("\n\n")` at line 114; `line cs` is one
semicolon-joined summary line (lines 135 and 160). -/
inductive OutItem where
  | record (nm : String)
  | header (nm : String)
  | span (bytes : List Nat)
  | marker
  | blank
  | blank2
  | line (cs : List Char)
deriving DecidableEq

/-- One BPLOG message, with its severity. -/
inductive LogMsg where
  | error (msg : String)
  | info (msg : String)
deriving DecidableEq

/-- Fuelled body of the rendering loop of `DumpRawStream` (lines 99-113).
The loop invariant: while the current offset is below the length, print the
bytes from the offset up to the next NUL (the semantics of
`printf("%.*s", remaining, ...)`), stop if `memchr` finds no NUL in the
remaining bytes, otherwise print the terminator marker and resume just past
that NUL.  Each iteration consumes at least one byte, so `length` is enough
fuel. -/
def renderScanAux : Nat → List Nat → List OutItem
  | 0, _ => []
  | _ + 1, [] => []
  | fuel + 1, b :: bs =>
    let dw := (b :: bs).dropWhile (fun x => x != 0)
    if dw.isEmpty then [OutItem.span ((b :: bs).takeWhile (fun x => x != 0))]
    else
      OutItem.span ((b :: bs).takeWhile (fun x => x != 0)) ::
        OutItem.marker :: renderScanAux fuel dw.tail

/-- The rendering loop of `DumpRawStream` on a whole buffer (lines 99-113). -/
def renderScan (bs : List Nat) : List OutItem := renderScanAux bs.length bs

/-- Bytes that a renderer token makes the tool write: a span writes its own
bytes, the terminator marker writes backslash, digit zero, newline. -/
def outBytes : OutItem → List Nat
  | OutItem.span bs => bs
  | OutItem.marker => [92, 48, 10]
  | _ => []

/-- Observable byte output of the rendering loop. -/
def renderBytes (bs : List Nat) : List Nat :=
  ((renderScan bs).map outBytes).flatten

/-- State of one raw stream inside the container, as seen through
`SeekToStreamType` and `ReadBytes`: the stream may be absent (seek fails),
located but unreadable (seek reports a length, `ReadBytes` fails), or
located and readable with the given bytes. -/
inductive RawStream where
  | absent
  | locatedUnreadable (len : Nat)
  | located (bytes : List Nat)
deriving DecidableEq

/-- Model of `DumpRawStream` (lines 78-115): seek; on failure return
silently.  Print the header.  On zero length print one blank line and
return (no read is attempted).  Then read; on read failure increment the
error counter and log.  Otherwise run the rendering loop and finish with
two newlines.  Returns (output, log, error-counter increment). -/
def dumpRawStream (nm : String) (s : RawStream) :
    List OutItem × List LogMsg × Nat :=
  match s with
  | RawStream.absent => ([], [], 0)
  | RawStream.locatedUnreadable len =>
    if len = 0 then ([OutItem.header nm, OutItem.blank], [], 0)
    else ([OutItem.header nm], [LogMsg.error "minidump.ReadBytes failed"], 1)
  | RawStream.located bytes =>
    if bytes.isEmpty then ([OutItem.header nm, OutItem.blank], [], 0)
    else (OutItem.header nm :: renderScan bytes ++ [OutItem.blank2], [], 0)

/-- One module record as exposed by the container library (interface of
`MinidumpModule`): four text fields. -/
structure ModuleRec where
  code_file : List Char
  code_identifier : List Char
  debug_file : List Char
  debug_identifier : List Char
deriving DecidableEq

/-- The raw `MDRawSystemInfo` version triple (unsigned 32-bit fields). -/
structure RawSystemInfo where
  major_version : Nat
  minor_version : Nat
  build_number : Nat
deriving DecidableEq

/-- The `MinidumpSystemInfo` record as consumed by the tool: `GetOS()`,
`GetCPU()`, and the optional raw record returned by `system_info()`. -/
structure SystemInfoRec where
  os : List Char
  cpu : List Char
  raw : Option RawSystemInfo
deriving DecidableEq

/-- Abstract state of the container after `Minidump::Read()`: for each
structured record, whether its getter returns non-null (for the module
list and system info also the returned data, which the summary modes
consume), and the state of each of the six raw Linux streams. -/
structure Container where
  readOk : Bool
  thread_list : Bool
  thread_name_list : Bool
  module_list : Option (List ModuleRec)
  memory_list : Bool
  exception : Bool
  assertion : Bool
  system_info : Option SystemInfoRec
  misc_info : Bool
  breakpad_info : Bool
  memory_info_list : Bool
  crashpad_info : Bool
  linux_cmd_line : RawStream
  linux_environ : RawStream
  linux_lsb_release : RawStream
  linux_proc_status : RawStream
  linux_cpu_info : RawStream
  linux_maps : RawStream
deriving DecidableEq

/-- The `Options` structure (lines 63-76) with its constructor defaults. -/
structure Options where
  minidumpPath : String := ""
  hexdump : Bool := false
  hexdump_width : Nat := 16
  modules_debug_info : Bool := false
  platform_info : Bool := false
deriving DecidableEq

/-- A full-dump step on a required record `nm` (e.g. lines 172-178): print
it when present, otherwise log an error and count one error. -/
def reqStep (nm : String) (present : Bool) :
    List OutItem × List LogMsg × Nat :=
  if present then ([OutItem.record nm], [], 0)
  else ([], [LogMsg.error (nm ++ " failed")], 1)

/-- A full-dump step on an optional record whose absence is logged at INFO
severity (e.g. the exception record, lines 204-209). -/
def optStepInfo (nm : String) (present : Bool) :
    List OutItem × List LogMsg × Nat :=
  if present then ([OutItem.record nm], [], 0)
  else ([], [LogMsg.info (nm ++ " failed")], 0)

/-- A full-dump step on an optional record whose absence is entirely
silent (thread names, lines 180-183; crashpad info, lines 250-254). -/
def optStepSilent (nm : String) (present : Bool) :
    List OutItem × List LogMsg × Nat :=
  if present then ([OutItem.record nm], [], 0) else ([], [], 0)

/-- Sequential composition of step results: outputs and logs concatenate,
error increments add. -/
def seqStep (a b : List OutItem × List LogMsg × Nat) :
    List OutItem × List LogMsg × Nat :=
  (a.1 ++ b.1, a.2.1 ++ b.2.1, a.2.2 + b.2.2)

/-- Model of the full-dump portion of `PrintMinidumpDump` (lines 168-281):
`minidump.Print()` first, then the eleven structured-record steps in
source order (the module-list step is preceded by
`MinidumpModuleList::set_max_modules(UINT32_MAX)`, a global knob with no
further observable effect here), then the six raw Linux streams.  The
error counter starts at zero and is never reset; no step is skipped
because of an earlier failure. -/
def fullDumpRun (c : Container) : List OutItem × List LogMsg × Nat :=
  seqStep ([OutItem.record "Minidump"], [], 0) <|
  seqStep (reqStep "MinidumpThreadList" c.thread_list) <|
  seqStep (optStepSilent "MinidumpThreadNameList" c.thread_name_list) <|
  seqStep (reqStep "MinidumpModuleList" c.module_list.isSome) <|
  seqStep (reqStep "MinidumpMemoryList" c.memory_list) <|
  seqStep (optStepInfo "MinidumpException" c.exception) <|
  seqStep (optStepInfo "MinidumpAssertion" c.assertion) <|
  seqStep (reqStep "MinidumpSystemInfo" c.system_info.isSome) <|
  seqStep (reqStep "MinidumpMiscInfo" c.misc_info) <|
  seqStep (optStepInfo "MinidumpBreakpadInfo" c.breakpad_info) <|
  seqStep (reqStep "MinidumpMemoryInfoList" c.memory_info_list) <|
  seqStep (optStepSilent "MinidumpCrashpadInfo" c.crashpad_info) <|
  seqStep (dumpRawStream "MD_LINUX_CMD_LINE" c.linux_cmd_line) <|
  seqStep (dumpRawStream "MD_LINUX_ENVIRON" c.linux_environ) <|
  seqStep (dumpRawStream "MD_LINUX_LSB_RELEASE" c.linux_lsb_release) <|
  seqStep (dumpRawStream "MD_LINUX_PROC_STATUS" c.linux_proc_status) <|
  seqStep (dumpRawStream "MD_LINUX_CPU_INFO" c.linux_cpu_info)
    (dumpRawStream "MD_LINUX_MAPS" c.linux_maps)

/-- Overall result of the full-dump mode: `return errors == 0` (line 281). -/
def fullDumpResult (c : Container) : Bool := (fullDumpRun c).2.2 == 0

/-- Decimal digit character, as produced by `printf`'s `%u`. -/
def digitChar (d : Nat) : Char :=
  match d % 10 with
  | 0 => '0' | 1 => '1' | 2 => '2' | 3 => '3' | 4 => '4'
  | 5 => '5' | 6 => '6' | 7 => '7' | 8 => '8' | _ => '9'

/-- Fuelled decimal rendering of an unsigned integer (most significant
digit first), the text `%u` produces. -/
def uDecAux : Nat → Nat → List Char
  | 0, _ => []
  | fuel + 1, n =>
    if n < 10 then [digitChar n]
    else uDecAux fuel (n / 10) ++ [digitChar (n % 10)]

/-- Decimal rendering of an unsigned integer, as `printf("%u", n)` prints
it. -/
def uDec (n : Nat) : List Char := uDecAux (n + 1) n

/-- The `sys_ver` buffer contents (lines 153-158): empty when the raw
system-info record is unavailable (the buffer is zero-initialised),
otherwise `sprintf(sys_ver, "%u.%u.%u", major, minor, build)`. -/
def versionChars (r : Option RawSystemInfo) : List Char :=
  match r with
  | none => []
  | some v =>
    uDec v.major_version ++ '.' :: uDec v.minor_version ++
      '.' :: uDec v.build_number

/-- Number of bytes `sprintf(sys_ver, "%u.%u.%u", a, b, c)` at line 156
stores into the 32-byte `sys_ver` buffer: the decimal digits of the three
components, two dots, and the terminating NUL. -/
def sprintfVersionBytes (a b c : Nat) : Nat :=
  (uDec a).length + (uDec b).length + (uDec c).length + 3

/-- One line of module-summary output (line 135):
`printf("%s;%s;%s;%s\n", code_file, code_identifier, debug_file,
debug_identifier)`, without the trailing newline (which `OutItem.line`
carries implicitly). -/
def moduleLine (m : ModuleRec) : List Char :=
  m.code_file ++ ';' :: m.code_identifier ++ ';' :: m.debug_file ++
    ';' :: m.debug_identifier

/-- The platform-summary line (line 160): `printf("%s;%s;%s\n", os,
sys_ver, cpu)` without the trailing newline. -/
def platformLine (s : SystemInfoRec) : List Char :=
  s.os ++ ';' :: versionChars s.raw ++ ';' :: s.cpu

/-- Decidable version of the shape `^\d+\.\d+\.\d+$`: splitting on the dot
gives exactly three nonempty all-digit groups. -/
def versionShape (cs : List Char) : Bool :=
  match cs.splitOn '.' with
  | [a, b, c] => !a.isEmpty && !b.isEmpty && !c.isEmpty &&
      (a ++ b ++ c).all Char.isDigit
  | _ => false

/-- Model of `PrintMinidumpDump` (lines 117-282).  `Minidump::Read()`
failure returns false before any mode logic.  The `-M` branch (lines
125-146) prints one line per module and succeeds iff the module list is
available; the `-P` branch (lines 148-166) prints one platform line and
succeeds iff system info is available; otherwise the full dump runs.
`GetModuleAtIndex` is non-null for every index below `module_count` per
the container interface, so every module yields a line. -/
def printMinidumpDump (o : Options) (c : Container) : List OutItem × Bool :=
  if c.readOk = false then ([], false)
  else if o.modules_debug_info then
    match c.module_list with
    | some mods => (mods.map (fun m => OutItem.line (moduleLine m)), true)
    | none => ([], false)
  else if o.platform_info then
    match c.system_info with
    | some s => ([OutItem.line (platformLine s)], true)
    | none => ([], false)
  else
    ((fullDumpRun c).1, fullDumpResult c)

/-- Result of `SetupOptions` (lines 303-335): it either exits the process
(after `-h`: usage on stdout, code 0; after an unknown flag: usage on
stderr, code 1; with the positional argument count different from one: a
message on stderr, code 1) or returns the filled-in `Options`. -/
inductive SetupResult where
  | exitHelp
  | exitBadFlag
  | exitMissingFile
  | ok (o : Options)
deriving DecidableEq

/-- Outcome of running `getopt`'s option characters of one argument
cluster through the `switch` at lines 308-326. -/
inductive FlagStep where
  | cont (o : Options)
  | help
  | badFlag
deriving DecidableEq

/-- The `switch` of `SetupOptions` (lines 308-326) over the characters of
one option cluster, against the option string `"xMPh"`: `x`, `M`, `P` set
their flags; `h` prints usage and exits 0; anything else prints usage and
exits 1. -/
def applyFlagChars (o : Options) : List Char → FlagStep
  | [] => FlagStep.cont o
  | ch :: rest =>
    if ch = 'x' then applyFlagChars { o with hexdump := true } rest
    else if ch = 'M' then
      applyFlagChars { o with modules_debug_info := true } rest
    else if ch = 'P' then
      applyFlagChars { o with platform_info := true } rest
    else if ch = 'h' then FlagStep.help
    else FlagStep.badFlag

/-- The `getopt` loop plus the positional-argument check of `SetupOptions`
(lines 307-334), for invocations whose options precede the positional
argument (glibc argument permutation is not exercised by such command
lines): consume leading `-...` clusters, stop at `--` or at the first
non-option argument; then `(argc - optind) != 1` is a fatal usage error
(message `"Missing minidump file"` on stderr, exit 1), else the single
remaining argument becomes `minidumpPath`. -/
def parseArgs (o : Options) : List String → SetupResult
  | [] => SetupResult.exitMissingFile
  | a :: rest =>
    match a.toList with
    | '-' :: c :: cs =>
      if c = '-' ∧ cs = [] then
        match rest with
        | [p] => SetupResult.ok { o with minidumpPath := p }
        | _ => SetupResult.exitMissingFile
      else
        match applyFlagChars o (c :: cs) with
        | FlagStep.cont o2 => parseArgs o2 rest
        | FlagStep.help => SetupResult.exitHelp
        | FlagStep.badFlag => SetupResult.exitBadFlag
    | _ =>
      match rest with
      | [] => SetupResult.ok { o with minidumpPath := a }
      | _ => SetupResult.exitMissingFile

/-- `SetupOptions` (lines 303-335) on a full argument vector (program name
first), starting from the default-constructed `Options`. -/
def setupOptions (args : List String) : SetupResult :=
  match args with
  | [] => SetupResult.exitMissingFile
  | _ :: rest => parseArgs {} rest

/-- The two standard output channels. -/
inductive StdStream where
  | stdout
  | stderr
deriving DecidableEq

/-- Destination chosen by `Usage` (line 287): stderr when called for an
error, stdout otherwise. -/
def usageFile (err : Bool) : StdStream :=
  if err then StdStream.stderr else StdStream.stdout

/-- What `SetupOptions` writes on each exit path: `Usage(.., false)` for
`-h` (line 319), `Usage(.., true)` for an unknown flag (line 323), and
the missing-file message on stderr (line 330). -/
def setupEmits : SetupResult → List (StdStream × String)
  | SetupResult.exitHelp => [(usageFile false, "usage")]
  | SetupResult.exitBadFlag => [(usageFile true, "usage")]
  | SetupResult.exitMissingFile => [(StdStream.stderr, "Missing minidump file")]
  | SetupResult.ok _ => []

/-- `main` (lines 339-344): run `SetupOptions` (which may exit 0 or 1 by
itself), then `return PrintMinidumpDump(options) ? 0 : 1`. -/
def mainRun (args : List String) (c : Container) : Nat :=
  match setupOptions args with
  | SetupResult.exitHelp => 0
  | SetupResult.exitBadFlag => 1
  | SetupResult.exitMissingFile => 1
  | SetupResult.ok o => if (printMinidumpDump o c).2 then 0 else 1

/-- Number of required structured records whose getter returns null
(each of the six `++errors` sites among lines 172-248). -/
def missingRequiredCount (c : Container) : Nat :=
  (if c.thread_list then 0 else 1) +
  (if c.module_list.isSome then 0 else 1) +
  (if c.memory_list then 0 else 1) +
  (if c.system_info.isSome then 0 else 1) +
  (if c.misc_info then 0 else 1) +
  (if c.memory_info_list then 0 else 1)

/-- Error increment contributed by one raw stream: one exactly when the
stream is located with nonzero length but cannot be read (line 95). -/
def rawReadErr : RawStream → Nat
  | RawStream.locatedUnreadable len => if len = 0 then 0 else 1
  | _ => 0

/-- Total error increment of the six raw-stream calls (lines 256-279). -/
def rawErrCount (c : Container) : Nat :=
  rawReadErr c.linux_cmd_line + rawReadErr c.linux_environ +
  rawReadErr c.linux_lsb_release + rawReadErr c.linux_proc_status +
  rawReadErr c.linux_cpu_info + rawReadErr c.linux_maps

/-- All six required records are present. -/
def requiredAllPresent (c : Container) : Prop :=
  c.thread_list = true ∧ c.module_list.isSome = true ∧
  c.memory_list = true ∧ c.system_info.isSome = true ∧
  c.misc_info = true ∧ c.memory_info_list = true

/-! Helper lemmas about the rendering loop. -/

theorem renderScanAux_nil (fuel : Nat) : renderScanAux fuel [] = [] := by
  cases fuel <;> rfl

theorem length_dropWhile_le (p : Nat → Bool) (l : List Nat) :
    (l.dropWhile p).length ≤ l.length := by
  induction l with
  | nil => simp
  | cons a l ih =>
    rw [List.dropWhile_cons]
    split
    · exact Nat.le_trans ih (Nat.le_succ _)
    · exact Nat.le_refl _

theorem renderScanAux_congr :
    ∀ (f1 : Nat) (f2 : Nat) (bs : List Nat), bs.length ≤ f1 → bs.length ≤ f2 →
      renderScanAux f1 bs = renderScanAux f2 bs := by
  intro f1
  induction f1 with
  | zero =>
    intro f2 bs h1 _
    have : bs = [] := List.eq_nil_of_length_eq_zero (Nat.le_zero.mp h1)
    subst this
    rw [renderScanAux_nil, renderScanAux_nil]
  | succ f1 ih =>
    intro f2 bs h1 h2
    cases bs with
    | nil => rw [renderScanAux_nil, renderScanAux_nil]
    | cons b bs' =>
      cases f2 with
      | zero => simp at h2
      | succ f2' =>
        simp only [renderScanAux]
        cases hdw : (b :: bs').dropWhile (fun x => x != 0) with
        | nil => simp
        | cons d tail =>
          have hlen : tail.length + 1 ≤ bs'.length + 1 := by
            have := length_dropWhile_le (fun x => x != 0) (b :: bs')
            rw [hdw] at this
            simpa using this
          simp only [List.length_cons] at h1 h2
          have ht1 : tail.length ≤ f1 := by omega
          have ht2 : tail.length ≤ f2' := by omega
          simp only [List.isEmpty_cons, List.tail_cons]
          rw [ih f2' tail ht1 ht2]

theorem takeWhile_append_zero (pre rest : List Nat) (h : 0 ∉ pre) :
    (pre ++ 0 :: rest).takeWhile (fun x => x != 0) = pre := by
  induction pre with
  | nil => simp [List.takeWhile_cons]
  | cons a pre' ih =>
    have ha : a ≠ 0 := by intro hh; exact h (hh ▸ List.mem_cons_self a pre')
    have hp : 0 ∉ pre' := fun hm => h (List.mem_cons_of_mem a hm)
    simp only [List.cons_append, List.takeWhile_cons]
    simp [ha, ih hp]

theorem dropWhile_append_zero (pre rest : List Nat) (h : 0 ∉ pre) :
    (pre ++ 0 :: rest).dropWhile (fun x => x != 0) = 0 :: rest := by
  induction pre with
  | nil => simp [List.dropWhile_cons]
  | cons a pre' ih =>
    have ha : a ≠ 0 := by intro hh; exact h (hh ▸ List.mem_cons_self a pre')
    have hp : 0 ∉ pre' := fun hm => h (List.mem_cons_of_mem a hm)
    simp only [List.cons_append, List.dropWhile_cons]
    simp [ha, ih hp]

theorem renderScanAux_append_zero (fuel : Nat) (pre rest : List Nat)
    (h : 0 ∉ pre) :
    renderScanAux (fuel + 1) (pre ++ 0 :: rest) =
      OutItem.span pre :: OutItem.marker :: renderScanAux fuel rest := by
  have hdw := dropWhile_append_zero pre rest h
  have htw := takeWhile_append_zero pre rest h
  cases pre with
  | nil =>
    simp only [List.nil_append] at hdw htw ⊢
    simp only [renderScanAux]
    rw [hdw, htw]
    simp
  | cons a pre' =>
    simp only [List.cons_append] at hdw htw ⊢
    simp only [renderScanAux]
    rw [hdw, htw]
    simp

/-- One pass of the rendering loop over a buffer whose first NUL sits right
after `pre`: one span for `pre`, the terminator marker, then the loop
resumes just past the NUL. -/
theorem renderScan_append_zero (pre rest : List Nat) (h : 0 ∉ pre) :
    renderScan (pre ++ 0 :: rest) =
      OutItem.span pre :: OutItem.marker :: renderScan rest := by
  unfold renderScan
  rw [show (pre ++ 0 :: rest).length = (pre.length + rest.length) + 1 by
    simp [List.length_append]
    omega]
  rw [renderScanAux_append_zero _ _ _ h]
  rw [renderScanAux_congr (pre.length + rest.length) rest.length rest
    (by omega) (Nat.le_refl _)]

/-- The rendering loop on a NUL-free buffer: a single span (or nothing for
an empty buffer), no marker. -/
theorem renderScan_no_zero (bs : List Nat) (h : 0 ∉ bs) :
    renderScan bs = if bs.isEmpty then [] else [OutItem.span bs] := by
  cases bs with
  | nil => rfl
  | cons b bs' =>
    have hdw : (b :: bs').dropWhile (fun x => x != 0) = [] := by
      rw [List.dropWhile_eq_nil_iff]
      intro x hx
      simp only [bne_iff_ne, ne_eq]
      intro hx0
      exact h (hx0 ▸ hx)
    have htw : (b :: bs').takeWhile (fun x => x != 0) = b :: bs' := by
      rw [List.takeWhile_eq_self_iff]
      intro x hx
      simp only [bne_iff_ne, ne_eq]
      intro hx0
      exact h (hx0 ▸ hx)
    unfold renderScan
    simp only [List.length_cons, renderScanAux]
    rw [hdw, htw]
    simp

/-! Helper lemmas about the full-dump steps. -/

theorem reqStep_err (nm : String) (b : Bool) :
    (reqStep nm b).2.2 = if b then 0 else 1 := by
  cases b <;> rfl

theorem optStepInfo_err (nm : String) (b : Bool) :
    (optStepInfo nm b).2.2 = 0 := by
  cases b <;> rfl

theorem optStepSilent_err (nm : String) (b : Bool) :
    (optStepSilent nm b).2.2 = 0 := by
  cases b <;> rfl

theorem dumpRawStream_err (nm : String) (s : RawStream) :
    (dumpRawStream nm s).2.2 = rawReadErr s := by
  cases s with
  | absent => rfl
  | locatedUnreadable len =>
    simp only [dumpRawStream, rawReadErr]
    split <;> rfl
  | located bytes =>
    simp only [dumpRawStream, rawReadErr]
    split <;> rfl

theorem seqStep_err (a b : List OutItem × List LogMsg × Nat) :
    (seqStep a b).2.2 = a.2.2 + b.2.2 := rfl

theorem mem_seqStep_out (x : OutItem) (a b : List OutItem × List LogMsg × Nat) :
    x ∈ (seqStep a b).1 ↔ x ∈ a.1 ∨ x ∈ b.1 := by
  simp [seqStep]

theorem mem_reqStep_out (x : OutItem) (nm : String) (b : Bool) :
    x ∈ (reqStep nm b).1 ↔ (b = true ∧ x = OutItem.record nm) := by
  cases b <;> simp [reqStep]

theorem mem_optStepInfo_out (x : OutItem) (nm : String) (b : Bool) :
    x ∈ (optStepInfo nm b).1 ↔ (b = true ∧ x = OutItem.record nm) := by
  cases b <;> simp [optStepInfo]

theorem mem_optStepSilent_out (x : OutItem) (nm : String) (b : Bool) :
    x ∈ (optStepSilent nm b).1 ↔ (b = true ∧ x = OutItem.record nm) := by
  cases b <;> simp [optStepSilent]

theorem record_not_mem_renderScanAux (nm : String) :
    ∀ (fuel : Nat) (bs : List Nat),
      OutItem.record nm ∉ renderScanAux fuel bs := by
  intro fuel
  induction fuel with
  | zero => intro bs; simp [renderScanAux]
  | succ fuel ih =>
    intro bs
    cases bs with
    | nil => simp [renderScanAux]
    | cons b bs' =>
      simp only [renderScanAux]
      split
      · simp
      · simp only [List.mem_cons]
        push_neg
        exact ⟨by simp, by simp, ih _⟩

theorem record_not_mem_dumpRawStream (x nm : String) (s : RawStream) :
    OutItem.record x ∉ (dumpRawStream nm s).1 := by
  cases s with
  | absent => simp [dumpRawStream]
  | locatedUnreadable len =>
    simp only [dumpRawStream]
    split <;> simp
  | located bytes =>
    simp only [dumpRawStream]
    split
    · simp
    · have hr := record_not_mem_renderScanAux x bytes.length bytes
      simp [renderScan, List.mem_cons, List.mem_append, hr]

/-! Helper lemmas about decimal rendering. -/

theorem digitChar_isDigit (d : Nat) : (digitChar d).isDigit = true := by
  unfold digitChar
  have h : d % 10 < 10 := Nat.mod_lt _ (by omega)
  generalize d % 10 = m at h ⊢
  rcases m with _ | _ | _ | _ | _ | _ | _ | _ | _ | _ | m <;> rfl

theorem uDecAux_digits :
    ∀ (fuel n : Nat) (c : Char), c ∈ uDecAux fuel n → c.isDigit = true := by
  intro fuel
  induction fuel with
  | zero => intro n c hc; simp [uDecAux] at hc
  | succ fuel ih =>
    intro n c hc
    simp only [uDecAux] at hc
    split at hc
    · simp at hc
      exact hc ▸ digitChar_isDigit n
    · rcases List.mem_append.mp hc with h1 | h2
      · exact ih _ _ h1
      · simp at h2
        exact h2 ▸ digitChar_isDigit (n % 10)

theorem uDec_digits (n : Nat) (c : Char) (hc : c ∈ uDec n) :
    c.isDigit = true :=
  uDecAux_digits (n + 1) n c hc

theorem uDec_ne_nil (n : Nat) : uDec n ≠ [] := by
  unfold uDec uDecAux
  split
  · simp
  · exact List.append_ne_nil_of_right_ne_nil _ (by simp)

theorem not_dot_mem_uDec (n : Nat) : '.' ∉ uDec n := by
  intro h
  have := uDec_digits n '.' h
  simp [Char.isDigit] at this

theorem not_semi_mem_uDec (n : Nat) : ';' ∉ uDec n := by
  intro h
  have := uDec_digits n ';' h
  simp [Char.isDigit] at this

theorem not_semi_mem_versionChars (r : Option RawSystemInfo) :
    ';' ∉ versionChars r := by
  cases r with
  | none => simp [versionChars]
  | some v =>
    have h1 := not_semi_mem_uDec v.major_version
    have h2 := not_semi_mem_uDec v.minor_version
    have h3 := not_semi_mem_uDec v.build_number
    have hdot : (';' : Char) ≠ '.' := by decide
    simp [versionChars, List.mem_append, List.mem_cons, h1, h2, h3, hdot]

/-! Helper lemmas about semicolon- and dot-joined fields. -/

theorem intercalate3 (sep : Char) (a b c : List Char) :
    [sep].intercalate [a, b, c] = a ++ sep :: b ++ sep :: c := by
  simp [List.intercalate, List.intersperse]

theorem intercalate4 (sep : Char) (a b c d : List Char) :
    [sep].intercalate [a, b, c, d] = a ++ sep :: b ++ sep :: c ++ sep :: d := by
  simp [List.intercalate, List.intersperse]

theorem moduleLine_splitOn (m : ModuleRec)
    (h1 : ';' ∉ m.code_file) (h2 : ';' ∉ m.code_identifier)
    (h3 : ';' ∉ m.debug_file) (h4 : ';' ∉ m.debug_identifier) :
    (moduleLine m).splitOn ';' =
      [m.code_file, m.code_identifier, m.debug_file, m.debug_identifier] := by
  have : moduleLine m =
      [';'].intercalate
        [m.code_file, m.code_identifier, m.debug_file, m.debug_identifier] := by
    rw [intercalate4]
    rfl
  rw [this]
  refine List.splitOn_intercalate _ ';' ?_ (by simp)
  intro l hl
  simp only [List.mem_cons, List.not_mem_nil, or_false] at hl
  rcases hl with h | h | h | h <;> exact h ▸ ‹_›

theorem platformLine_splitOn (s : SystemInfoRec)
    (h1 : ';' ∉ s.os) (h2 : ';' ∉ s.cpu) :
    (platformLine s).splitOn ';' = [s.os, versionChars s.raw, s.cpu] := by
  have : platformLine s =
      [';'].intercalate [s.os, versionChars s.raw, s.cpu] := by
    rw [intercalate3]
    rfl
  rw [this]
  refine List.splitOn_intercalate _ ';' ?_ (by simp)
  intro l hl
  simp only [List.mem_cons, List.not_mem_nil, or_false] at hl
  rcases hl with h | h | h
  · exact h ▸ h1
  · exact h ▸ not_semi_mem_versionChars s.raw
  · exact h ▸ h2

theorem versionShape_versionChars (v : RawSystemInfo) :
    versionShape (versionChars (some v)) = true := by
  have hsplit : (versionChars (some v)).splitOn '.' =
      [uDec v.major_version, uDec v.minor_version, uDec v.build_number] := by
    have : versionChars (some v) =
        ['.'].intercalate
          [uDec v.major_version, uDec v.minor_version, uDec v.build_number] := by
      rw [intercalate3]
      rfl
    rw [this]
    refine List.splitOn_intercalate _ '.' ?_ (by simp)
    intro l hl
    simp only [List.mem_cons, List.not_mem_nil, or_false] at hl
    rcases hl with h | h | h <;> exact h ▸ not_dot_mem_uDec _
  unfold versionShape
  rw [hsplit]
  simp only [Bool.and_eq_true, Bool.not_eq_true']
  refine ⟨⟨⟨?_, ?_⟩, ?_⟩, ?_⟩
  · simp [List.isEmpty_eq_false, uDec_ne_nil]
  · simp [List.isEmpty_eq_false, uDec_ne_nil]
  · simp [List.isEmpty_eq_false, uDec_ne_nil]
  · rw [List.all_eq_true]
    intro c hc
    simp only [List.mem_append] at hc
    rcases hc with (h | h) | h <;> exact uDec_digits _ _ h

/-! Concrete sample data used by the witnesses. -/

/-- A sample module record. -/
def sampleModule : ModuleRec :=
  { code_file := ['a'], code_identifier := ['b'],
    debug_file := ['c'], debug_identifier := ['d'] }

/-- A sample system-info record with a raw version triple. -/
def sampleSystemInfo : SystemInfoRec :=
  { os := ['L', 'i', 'n', 'u', 'x'], cpu := ['x', '8', '6'],
    raw := some { major_version := 6, minor_version := 1, build_number := 0 } }

/-- A sample container in which every record is present and every raw
stream is absent. -/
def sampleContainer : Container :=
  { readOk := true, thread_list := true, thread_name_list := true,
    module_list := some [sampleModule], memory_list := true,
    exception := true, assertion := true,
    system_info := some sampleSystemInfo, misc_info := true,
    breakpad_info := true, memory_info_list := true, crashpad_info := true,
    linux_cmd_line := RawStream.absent, linux_environ := RawStream.absent,
    linux_lsb_release := RawStream.absent,
    linux_proc_status := RawStream.absent,
    linux_cpu_info := RawStream.absent, linux_maps := RawStream.absent }

/-! The claims. -/

/-- Claim C3: for a buffer with exactly one NUL byte — written
`pre ++ 0 :: post` with `pre` and `post` NUL-free — the renderer emits the
bytes before the NUL as a literal span, then the terminator marker, then
the bytes after the NUL as a second span with no further marker (the
second span is vacuous when the NUL is the last byte); the observable
byte output is therefore `pre`, the marker bytes, then `post`.
Consecutive NUL bytes each produce an empty span and a marker with no
collapsing, and `DumpRawStream` appends the two trailing line breaks
after the scan. -/
theorem C3_render_single_nul (pre post : List Nat)
    (hpre : 0 ∉ pre) (hpost : 0 ∉ post) :
    renderScan (pre ++ 0 :: post) =
      OutItem.span pre :: OutItem.marker ::
        (if post.isEmpty then [] else [OutItem.span post]) ∧
    renderBytes (pre ++ 0 :: post) = pre ++ [92, 48, 10] ++ post ∧
    (∀ k : Nat, renderScan (List.replicate k 0) =
      (List.replicate k [OutItem.span [], OutItem.marker]).flatten) ∧
    (∀ nm : String, dumpRawStream nm (RawStream.located (pre ++ 0 :: post)) =
      (OutItem.header nm :: renderScan (pre ++ 0 :: post) ++ [OutItem.blank2],
        [], 0)) := by
  have hscan : renderScan (pre ++ 0 :: post) =
      OutItem.span pre :: OutItem.marker ::
        (if post.isEmpty then [] else [OutItem.span post]) := by
    rw [renderScan_append_zero pre post hpre, renderScan_no_zero post hpost]
  refine ⟨hscan, ?_, ?_, ?_⟩
  · unfold renderBytes
    rw [hscan]
    cases hp : post.isEmpty with
    | true =>
      have : post = [] := List.isEmpty_iff.mp hp
      subst this
      simp [outBytes]
    | false => simp [outBytes]
  · intro k
    induction k with
    | zero => rfl
    | succ k ih =>
      rw [List.replicate_succ, List.replicate_succ, List.flatten_cons]
      have : (0 : Nat) :: List.replicate k 0 =
          [] ++ 0 :: List.replicate k 0 := rfl
      rw [this, renderScan_append_zero [] (List.replicate k 0) (by simp), ih]
      rfl
  · intro nm
    have hne : (pre ++ 0 :: post).isEmpty = false := by
      rw [List.isEmpty_eq_false]
      intro hc
      rcases List.append_eq_nil.mp hc with ⟨_, h2⟩
      simp at h2
    simp [dumpRawStream, hne]

/-- Claim C4: for a raw catalogue stream, absence is skipped silently (no
output, no log, no tally change); a located stream whose bytes cannot be
read increments the tally by exactly one and logs an error (after printing
only the header); a readable stream never changes the tally. -/
theorem C4_raw_stream_errors (nm : String) :
    dumpRawStream nm RawStream.absent = ([], [], 0) ∧
    (∀ len : Nat, 0 < len →
      dumpRawStream nm (RawStream.locatedUnreadable len) =
        ([OutItem.header nm],
          [LogMsg.error "minidump.ReadBytes failed"], 1)) ∧
    (∀ bytes : List Nat,
      (dumpRawStream nm (RawStream.located bytes)).2.2 = 0) := by
  refine ⟨rfl, ?_, ?_⟩
  · intro len hlen
    have : ¬ len = 0 := by omega
    simp [dumpRawStream, this]
  · intro bytes
    rw [dumpRawStream_err]
    rfl

/-- Claim C7: a raw catalogue stream located with length zero prints
exactly the section header and one blank line, attempts no read and no
byte scan, and leaves the tally unchanged — both when the (never
attempted) read would have succeeded and when it would have failed. -/
theorem C7_zero_length_stream (nm : String) :
    dumpRawStream nm (RawStream.located []) =
      ([OutItem.header nm, OutItem.blank], [], 0) ∧
    dumpRawStream nm (RawStream.locatedUnreadable 0) =
      ([OutItem.header nm, OutItem.blank], [], 0) := by
  exact ⟨rfl, rfl⟩

/-- Witness for C3 at the concrete buffer `[65, 0, 66]` (one NUL at
position 1). -/
theorem C3_render_single_nul_witness :
    renderBytes [65, 0, 66] = [65] ++ [92, 48, 10] ++ [66] :=
  (C3_render_single_nul [65] [66] (by decide) (by decide)).2.1

/-- Witness for C4 at a located-but-unreadable stream of length 5. -/
theorem C4_raw_stream_errors_witness :
    dumpRawStream "MD_LINUX_MAPS" (RawStream.locatedUnreadable 5) =
      ([OutItem.header "MD_LINUX_MAPS"],
        [LogMsg.error "minidump.ReadBytes failed"], 1) :=
  (C4_raw_stream_errors "MD_LINUX_MAPS").2.1 5 (by decide)

theorem missingRequired_zero_iff (c : Container) :
    missingRequiredCount c = 0 ↔ requiredAllPresent c := by
  unfold missingRequiredCount requiredAllPresent
  cases c.thread_list <;> cases c.module_list.isSome <;>
    cases c.memory_list <;> cases c.system_info.isSome <;>
    cases c.misc_info <;> cases c.memory_info_list <;> simp

/-- Claim C1: the full dump runs every step and never short-circuits; its
error tally is exactly the number of missing required records plus the
raw-stream read failures, so the result is success iff the tally is zero
iff all six required records are present and no located raw stream is
unreadable; the tally is unaffected by the optional records; and — as a
no-short-circuit check — the memory-info record (retrieved after every
required-record check) is printed exactly when present, whatever else is
missing. -/
theorem C1_full_dump_success_iff (c : Container) :
    (fullDumpRun c).2.2 = missingRequiredCount c + rawErrCount c ∧
    (fullDumpResult c = true ↔
      (requiredAllPresent c ∧ rawErrCount c = 0)) ∧
    ((fullDumpRun { c with
        thread_name_list := false
        exception := false
        assertion := false
        breakpad_info := false
        crashpad_info := false }).2.2 = (fullDumpRun c).2.2) ∧
    (OutItem.record "MinidumpMemoryInfoList" ∈ (fullDumpRun c).1 ↔
      c.memory_info_list = true) := by
  have herr : ∀ c' : Container,
      (fullDumpRun c').2.2 = missingRequiredCount c' + rawErrCount c' := by
    intro c'
    simp only [fullDumpRun, seqStep_err, reqStep_err, optStepInfo_err,
      optStepSilent_err, dumpRawStream_err, missingRequiredCount, rawErrCount]
    omega
  refine ⟨herr c, ?_, ?_, ?_⟩
  · unfold fullDumpResult
    rw [beq_iff_eq, herr c, ← missingRequired_zero_iff]
    omega
  · rw [herr, herr]
    rfl
  · simp only [fullDumpRun, mem_seqStep_out, mem_reqStep_out,
      mem_optStepInfo_out, mem_optStepSilent_out]
    have hraw : ∀ nm s, OutItem.record "MinidumpMemoryInfoList" ∉
        (dumpRawStream nm s).1 := fun nm s =>
      record_not_mem_dumpRawStream _ nm s
    simp [hraw]

/-- Claim C2: in module-summary mode (`-M`), an unavailable module list
makes the overall result a failure with no output; otherwise exactly one
line per module is printed, in the module list's original order, each line
being the four fields joined by semicolons — so it splits into exactly
those four fields whenever the fields themselves are semicolon-free — and
the mode reports success, including for an empty module list (zero lines,
still success). -/
theorem C2_module_summary (o : Options) (c : Container)
    (hm : o.modules_debug_info = true) (hr : c.readOk = true) :
    (c.module_list = none → printMinidumpDump o c = ([], false)) ∧
    (∀ mods : List ModuleRec, c.module_list = some mods →
      printMinidumpDump o c =
        (mods.map (fun m => OutItem.line (moduleLine m)), true) ∧
      (mods.map (fun m => OutItem.line (moduleLine m))).length =
        mods.length ∧
      (∀ m ∈ mods,
        (';' ∉ m.code_file ∧ ';' ∉ m.code_identifier ∧
          ';' ∉ m.debug_file ∧ ';' ∉ m.debug_identifier) →
        (moduleLine m).splitOn ';' =
          [m.code_file, m.code_identifier, m.debug_file,
            m.debug_identifier])) := by
  constructor
  · intro hnone
    simp [printMinidumpDump, hr, hm, hnone]
  · intro mods hsome
    refine ⟨?_, by simp, ?_⟩
    · simp [printMinidumpDump, hr, hm, hsome]
    · intro m _ ⟨h1, h2, h3, h4⟩
      exact moduleLine_splitOn m h1 h2 h3 h4

/-- Witness for C2: on the sample container with one module, module-summary
mode prints that module's line and succeeds. -/
theorem C2_module_summary_witness :
    printMinidumpDump
        { minidumpPath := "core.dmp", modules_debug_info := true }
        sampleContainer =
      ([OutItem.line (moduleLine sampleModule)], true) :=
  ((C2_module_summary
      { minidumpPath := "core.dmp", modules_debug_info := true }
      sampleContainer rfl rfl).2 [sampleModule] rfl).1

/-- Claim C5: in platform-summary mode (`-P`), unavailable system info
makes the overall result a failure; otherwise exactly one line of three
semicolon-separated fields (OS, version, CPU) is printed and the mode
succeeds.  The version field is empty (not omitted — the line keeps its
three fields) when the raw version record is unavailable, and otherwise is
`major.minor.build`, which matches the shape digits-dot-digits-dot-digits. -/
theorem C5_platform_summary (o : Options) (c : Container)
    (hm : o.modules_debug_info = false) (hp : o.platform_info = true)
    (hr : c.readOk = true) :
    (c.system_info = none → printMinidumpDump o c = ([], false)) ∧
    (∀ s : SystemInfoRec, c.system_info = some s →
      printMinidumpDump o c = ([OutItem.line (platformLine s)], true) ∧
      platformLine s = s.os ++ ';' :: versionChars s.raw ++ ';' :: s.cpu ∧
      (s.raw = none → versionChars s.raw = []) ∧
      (∀ v : RawSystemInfo, s.raw = some v →
        versionChars s.raw =
          uDec v.major_version ++ '.' :: uDec v.minor_version ++
            '.' :: uDec v.build_number ∧
        versionShape (versionChars s.raw) = true) ∧
      ((';' ∉ s.os ∧ ';' ∉ s.cpu) →
        (platformLine s).splitOn ';' = [s.os, versionChars s.raw, s.cpu])) := by
  constructor
  · intro hnone
    simp [printMinidumpDump, hr, hm, hp, hnone]
  · intro s hsome
    refine ⟨?_, rfl, ?_, ?_, ?_⟩
    · simp [printMinidumpDump, hr, hm, hp, hsome]
    · intro hraw
      rw [hraw]
      rfl
    · intro v hv
      rw [hv]
      exact ⟨rfl, versionShape_versionChars v⟩
    · intro ⟨h1, h2⟩
      exact platformLine_splitOn s h1 h2

/-- Witness for C5: on the sample container, platform-summary mode prints
the sample platform line and succeeds. -/
theorem C5_platform_summary_witness :
    printMinidumpDump
        { minidumpPath := "core.dmp", platform_info := true }
        sampleContainer =
      ([OutItem.line (platformLine sampleSystemInfo)], true) :=
  ((C5_platform_summary
      { minidumpPath := "core.dmp", platform_info := true }
      sampleContainer rfl rfl rfl).2 sampleSystemInfo rfl).1

/-- Options in which at most one mode flag is set, keeping the flag that
actually drives the branch taken by `PrintMinidumpDump`: `-M` wins over
`-P`, which wins over the full dump. -/
def canonicalOptions (o : Options) : Options :=
  { o with platform_info := o.platform_info && !o.modules_debug_info }

/-- Counterexample to claim C6 as stated: the command line
`minidump_dump -M -P core.dmp` IS accepted by `SetupOptions` and yields a
run configuration with both mode flags set — the flags are not mutually
exclusive in the configuration. -/
theorem C6_both_flags_counterexample :
    setupOptions ["minidump_dump", "-M", "-P", "core.dmp"] =
      SetupResult.ok
        { minidumpPath := "core.dmp", hexdump := false, hexdump_width := 16,
          modules_debug_info := true, platform_info := true } := by
  decide

/-- Claim C6 (amended): the configuration flags are not mutually
exclusive, but the effective mode is unique — every run behaves exactly as
one whose flags are mutually exclusive (module-summary taking precedence
over platform-summary, which takes precedence over full dump), so exactly
one output shape is produced per run. -/
theorem C6_effective_mode_unique (o : Options) (c : Container) :
    printMinidumpDump o c = printMinidumpDump (canonicalOptions o) c ∧
    ¬((canonicalOptions o).modules_debug_info = true ∧
      (canonicalOptions o).platform_info = true) := by
  constructor
  · cases hm : o.modules_debug_info <;>
      simp [printMinidumpDump, canonicalOptions, hm]
  · cases hm : o.modules_debug_info <;>
      simp [canonicalOptions, hm]

/-- Claim C8: when `SetupOptions` returns a configuration, the process
exit code is 0 iff the selected mode's result is success (and is always 0
or 1); a missing dump-file argument is a fatal usage error, exit 1, whose
message goes to stderr before any dump logic runs (the exit code does not
depend on the container); an unrecognized flag prints usage to stderr and
exits 1; the help flag prints usage to stdout and exits 0. -/
theorem C8_exit_codes :
    (∀ (args : List String) (c : Container) (o : Options),
      setupOptions args = SetupResult.ok o →
      (mainRun args c = 0 ↔ (printMinidumpDump o c).2 = true)) ∧
    (∀ (args : List String) (c : Container),
      mainRun args c = 0 ∨ mainRun args c = 1) ∧
    (setupOptions ["minidump_dump"] = SetupResult.exitMissingFile ∧
      setupEmits SetupResult.exitMissingFile =
        [(StdStream.stderr, "Missing minidump file")] ∧
      (∀ c : Container, mainRun ["minidump_dump"] c = 1)) ∧
    (setupOptions ["minidump_dump", "-z", "core.dmp"] =
        SetupResult.exitBadFlag ∧
      setupEmits SetupResult.exitBadFlag = [(StdStream.stderr, "usage")] ∧
      (∀ c : Container, mainRun ["minidump_dump", "-z", "core.dmp"] c = 1)) ∧
    (∀ (o : Options) (ch : Char), ch ≠ 'x' → ch ≠ 'M' → ch ≠ 'P' →
      ch ≠ 'h' → applyFlagChars o [ch] = FlagStep.badFlag) ∧
    (setupOptions ["minidump_dump", "-h"] = SetupResult.exitHelp ∧
      setupEmits SetupResult.exitHelp = [(StdStream.stdout, "usage")] ∧
      (∀ c : Container, mainRun ["minidump_dump", "-h"] c = 0)) := by
  refine ⟨?_, ?_, ⟨by decide, by decide, fun c => rfl⟩,
    ⟨by decide, by decide, fun c => rfl⟩, ?_,
    ⟨by decide, by decide, fun c => rfl⟩⟩
  · intro args c o h
    unfold mainRun
    rw [h]
    cases hb : (printMinidumpDump o c).2 <;> simp [hb]
  · intro args c
    unfold mainRun
    cases setupOptions args with
    | exitHelp => exact Or.inl rfl
    | exitBadFlag => exact Or.inr rfl
    | exitMissingFile => exact Or.inr rfl
    | ok o =>
      cases hb : (printMinidumpDump o c).2 <;> simp [hb]
  · intro o ch h1 h2 h3 h4
    simp [applyFlagChars, h1, h2, h3, h4]

/-- Witness for C8: a well-formed invocation on the sample container exits
0 iff the full dump succeeds there. -/
theorem C8_exit_codes_witness :
    mainRun ["minidump_dump", "core.dmp"] sampleContainer = 0 ↔
      (printMinidumpDump { minidumpPath := "core.dmp" }
        sampleContainer).2 = true :=
  C8_exit_codes.1 ["minidump_dump", "core.dmp"] sampleContainer
    { minidumpPath := "core.dmp" } (by decide)

/-- Claim C9 is false of the code: with all three version components at
their maximum unsigned-32-bit value 4294967295, the formatted
`major.minor.build` string plus its NUL terminator occupies 33 bytes,
one more than the 32-byte `sys_ver` buffer `sprintf` writes into. -/
theorem C9_version_buffer_overflow :
    sprintfVersionBytes 4294967295 4294967295 4294967295 = 33 ∧ 32 < 33 := by
  constructor
  · decide
  · decide

/-- Claim C10: a run with both `-M` and `-P` behaves exactly as the same
run with only `-M`: the output and result are identical (so no
platform-summary output is ever produced), `SetupOptions` accepts the
double-flag command line, and the exit codes of the two invocations agree
on every container. -/
theorem C10_module_precedence (o : Options) (c : Container)
    (hm : o.modules_debug_info = true) :
    printMinidumpDump o c =
      printMinidumpDump { o with platform_info := false } c ∧
    setupOptions ["minidump_dump", "-M", "-P", "core.dmp"] =
      SetupResult.ok
        { minidumpPath := "core.dmp", modules_debug_info := true,
          platform_info := true } ∧
    (∀ c2 : Container,
      mainRun ["minidump_dump", "-M", "-P", "core.dmp"] c2 =
        mainRun ["minidump_dump", "-M", "core.dmp"] c2) := by
  refine ⟨?_, by decide, ?_⟩
  · simp [printMinidumpDump, hm]
  · intro c2
    unfold mainRun
    rw [show setupOptions ["minidump_dump", "-M", "-P", "core.dmp"] =
        SetupResult.ok
          { minidumpPath := "core.dmp", modules_debug_info := true,
            platform_info := true } from by decide]
    rw [show setupOptions ["minidump_dump", "-M", "core.dmp"] =
        SetupResult.ok
          { minidumpPath := "core.dmp", modules_debug_info := true } from by
      decide]
    have heq : printMinidumpDump
        { minidumpPath := "core.dmp", modules_debug_info := true,
          platform_info := true } c2 =
        printMinidumpDump
          { minidumpPath := "core.dmp", modules_debug_info := true } c2 := by
      simp [printMinidumpDump]
    simp [heq]

/-- Witness for C10 at the sample container: the double-flag run equals
the `-M`-only run. -/
theorem C10_module_precedence_witness :
    printMinidumpDump
        { minidumpPath := "core.dmp", modules_debug_info := true,
          platform_info := true } sampleContainer =
      printMinidumpDump
        { minidumpPath := "core.dmp", modules_debug_info := true,
          platform_info := false } sampleContainer :=
  (C10_module_precedence
    { minidumpPath := "core.dmp", modules_debug_info := true,
      platform_info := true } sampleContainer rfl).1

end MinidumpDump
